import Mathlib

/-!
Shallow embedding of `src/client/rpc_stream.go` (package `client` of
jexia/go-micro): the client-side RPC stream `rpcStream` with its four
operations `Send`, `Recv`, `Error` and `Close`.

The codec (`codec.Codec`) is embedded as a scripted transport spy: each of
its four operations consumes the head of a script list of outcomes and
appends the operation it performed to a trace, so theorems can speak both
about what the stream returns and about which transport operations ran, in
order.  Message bodies are opaque (`Option Nat`: `none` is Go's `nil`
body).  The `sync.RWMutex` locking and the `fmt.Printf` debug lines of the
source have no observable effect in a sequential (linearized) execution
and are not modelled; each exported operation is one atomic step on the
stream state, matching the lock discipline of the source.
-/

/-- Go error values that appear in `rpc_stream.go`.  `eof` is `io.EOF`,
`unexpectedEOF` is `io.ErrUnexpectedEOF`, `shutdown` is the client
package's `errShutdown`, `serverErr s` is `serverError(s)`, and `other n`
stands for an arbitrary distinct transport/codec error value. -/
inductive Err where
  | shutdown
  | eof
  | unexpectedEOF
  | serverErr (msg : String)
  | other (n : Nat)
deriving DecidableEq, Repr

/-- Modelled from the spec: `errShutdown`, the "stream closed" error kind,
declared in the `client` package outside `src/`. -/
def errShutdown : Err := Err.shutdown

/-- Modelled from the spec: `lastStreamResponseError`, the reserved
end-of-stream sentinel string, declared outside `src/`; the spec only
requires it to be a fixed well-known error-string value. -/
def lastStreamResponseError : String := "EOS"

/-- Modelled from the spec: `serverError`, declared outside `src/`; wraps
a server-reported error string into the "remote call failed" error kind
carrying the original message text. -/
def serverError (s : String) : Err := Err.serverErr s

/-- Frame types of `codec.MessageType`: `Request`, `Response`, `Error`. -/
inductive MsgType where
  | request
  | response
  | error
deriving DecidableEq, Repr

/-- A frame header, `codec.Message` (the fields `rpc_stream.go` sets). -/
structure Message where
  id : String
  target : String
  method : String
  endpoint : String
  type : MsgType
  error : String
deriving DecidableEq, Repr

/-- Outcome of a `ReadHeader` call: either a transport error, or success
together with the `Error` field of the header that was read. -/
inductive ReadHeaderRes where
  | err (e : Err)
  | ok (errorField : String)
deriving DecidableEq, Repr

/-- One recorded transport (codec) operation, for the spy trace.  A
`write` records the full header and the body (`none` = Go `nil`), a
`readBody` records whether the target was the discard target (`nil`). -/
inductive CodecOp where
  | write (m : Message) (body : Option Nat)
  | readHeader (t : MsgType)
  | readBody (discard : Bool)
  | close
deriving DecidableEq, Repr

/-- The scripted codec: outcome scripts for each operation plus the trace
of operations performed so far.  An exhausted script defaults to success
(an `ok` header with empty error field, a `none` error). -/
structure Codec where
  writeResults : List (Option Err)
  readHeaderResults : List ReadHeaderRes
  readBodyResults : List (Option Err)
  closeResults : List (Option Err)
  trace : List CodecOp
deriving DecidableEq, Repr

/-- `codec.Write(&m, body)`. -/
def Codec.write (c : Codec) (m : Message) (body : Option Nat) :
    Codec × Option Err :=
  ({ c with writeResults := c.writeResults.tail,
            trace := c.trace ++ [CodecOp.write m body] },
   c.writeResults.headD none)

/-- `codec.ReadHeader(&resp, t)`. -/
def Codec.readHeader (c : Codec) (t : MsgType) : Codec × ReadHeaderRes :=
  ({ c with readHeaderResults := c.readHeaderResults.tail,
            trace := c.trace ++ [CodecOp.readHeader t] },
   c.readHeaderResults.headD (ReadHeaderRes.ok ""))

/-- `codec.ReadBody(target)`; `discard = true` is `ReadBody(nil)`. -/
def Codec.readBody (c : Codec) (discard : Bool) : Codec × Option Err :=
  ({ c with readBodyResults := c.readBodyResults.tail,
            trace := c.trace ++ [CodecOp.readBody discard] },
   c.readBodyResults.headD none)

/-- `codec.Close()`. -/
def Codec.close (c : Codec) : Codec × Option Err :=
  ({ c with closeResults := c.closeResults.tail,
            trace := c.trace ++ [CodecOp.close] },
   c.closeResults.headD none)

/-- The stream state `rpcStream`.  `closed` embeds the one-way `closed`
channel, `err` the `err` field (`none` = Go `nil`), `service`/`method`/
`endpoint` the immutable accessors of the bound `Request`, and `released`
records, in order, the argument of every invocation of the `release`
hook. -/
structure RpcStream where
  id : String
  service : String
  method : String
  endpoint : String
  closed : Bool
  err : Option Err
  sendEOS : Bool
  codec : Codec
  released : List (Option Err)
deriving DecidableEq, Repr

/-- `rpcStream.isClosed`: non-blocking test of the `closed` channel. -/
def RpcStream.isClosed (r : RpcStream) : Bool := r.closed

/-- `rpcStream.Error`: returns the current `err` field (under `RLock`). -/
def RpcStream.Error (r : RpcStream) : Option Err := r.err

/-- `rpcStream.Send(msg)`. -/
def RpcStream.Send (r : RpcStream) (msg : Nat) : RpcStream × Option Err :=
  if r.isClosed then
    ({ r with err := some errShutdown }, some errShutdown)
  else
    let req : Message :=
      { id := r.id, target := r.service, method := r.method,
        endpoint := r.endpoint, type := MsgType.request, error := "" }
    let p := r.codec.write req (some msg)
    match p.2 with
    | some e => ({ r with codec := p.1, err := some e }, some e)
    | none => ({ r with codec := p.1 }, none)

/-- The tail both `switch` arms of `Recv` share: `r.codec.ReadBody(target)`
(`discard = true` is the `nil` target), recording a read-body failure in
`err`, then `return r.err`. -/
def RpcStream.recvReadBody (r : RpcStream) (discard : Bool) :
    RpcStream × Option Err :=
  let q := r.codec.readBody discard
  let r3 : RpcStream := { r with codec := q.1 }
  let r4 : RpcStream :=
    match q.2 with
    | some e => { r3 with err := some e }
    | none => r3
  (r4, r4.err)

/-- `rpcStream.Recv(msg)`.  The source unlocks around `ReadHeader` and
`ReadBody`; in the sequential model those windows are empty, so the
`!r.isClosed()` recheck after the header read sees the entry state. -/
def RpcStream.Recv (r : RpcStream) : RpcStream × Option Err :=
  if r.isClosed then
    ({ r with err := some errShutdown }, some errShutdown)
  else
    let p := r.codec.readHeader MsgType.response
    let r1 : RpcStream := { r with codec := p.1 }
    match p.2 with
    | ReadHeaderRes.err e =>
      if e = Err.eof ∧ r1.isClosed = false then
        ({ r1 with err := some Err.unexpectedEOF }, some Err.unexpectedEOF)
      else
        ({ r1 with err := some e }, some e)
    | ReadHeaderRes.ok errStr =>
      if 0 < errStr.length then
        (if errStr ≠ lastStreamResponseError then
          { r1 with err := some (serverError errStr) }
        else
          { r1 with err := some Err.eof }).recvReadBody true
      else
        r1.recvReadBody false

/-- `rpcStream.Close()`. -/
def RpcStream.Close (r : RpcStream) : RpcStream × Option Err :=
  if r.isClosed then
    (r, none)
  else
    let r1 : RpcStream := { r with closed := true }
    let r2 : RpcStream :=
      if r1.sendEOS then
        let p := r1.codec.write
          { id := r1.id, target := r1.service, method := r1.method,
            endpoint := r1.endpoint, type := MsgType.error,
            error := lastStreamResponseError } none
        { r1 with codec := p.1 }
      else r1
    let q := r2.codec.close
    let r3 : RpcStream := { r2 with codec := q.1 }
    let r4 : RpcStream := { r3 with released := r3.released ++ [r3.Error] }
    (r4, q.2)

/-- One caller-visible operation on a stream. -/
inductive Op where
  | send (m : Nat)
  | recv
  | close
deriving DecidableEq, Repr

/-- Apply one operation, returning the new state and the returned error. -/
def RpcStream.applyOp (r : RpcStream) : Op → RpcStream × Option Err
  | Op.send m => r.Send m
  | Op.recv => r.Recv
  | Op.close => r.Close

/-- Run a sequence of operations, collecting every returned error. -/
def RpcStream.run : RpcStream → List Op → RpcStream × List (Option Err)
  | r, [] => (r, [])
  | r, op :: ops =>
    let p := r.applyOp op
    let q := p.1.run ops
    (q.1, p.2 :: q.2)

/-- Iterate `Close` a number of times. -/
def RpcStream.closeN : RpcStream → Nat → RpcStream
  | r, 0 => r
  | r, n + 1 => ((r.Close).1).closeN n

/-! ### Helper lemmas -/

theorem close_of_closed (r : RpcStream) (h : r.closed = true) :
    r.Close = (r, none) := by
  simp [RpcStream.Close, RpcStream.isClosed, h]

theorem closed_after_close (r : RpcStream) : ((r.Close).1).closed = true := by
  simp only [RpcStream.Close, RpcStream.isClosed]
  split
  · assumption
  · split <;> rfl

theorem recvReadBody_closed (r : RpcStream) (d : Bool) :
    ((r.recvReadBody d).1).closed = r.closed := by
  simp only [RpcStream.recvReadBody]
  split <;> rfl

theorem recvReadBody_released (r : RpcStream) (d : Bool) :
    ((r.recvReadBody d).1).released = r.released := by
  simp only [RpcStream.recvReadBody]
  split <;> rfl

theorem send_of_closed (r : RpcStream) (m : Nat) (h : r.closed = true) :
    r.Send m = ({ r with err := some errShutdown }, some errShutdown) := by
  simp [RpcStream.Send, RpcStream.isClosed, h]

theorem recv_of_closed (r : RpcStream) (h : r.closed = true) :
    r.Recv = ({ r with err := some errShutdown }, some errShutdown) := by
  simp [RpcStream.Recv, RpcStream.isClosed, h]

theorem send_closed_eq (r : RpcStream) (m : Nat) :
    ((r.Send m).1).closed = r.closed := by
  simp only [RpcStream.Send, RpcStream.isClosed]
  split
  · rfl
  · split <;> rfl

theorem recv_closed_eq (r : RpcStream) :
    ((r.Recv).1).closed = r.closed := by
  simp only [RpcStream.Recv, RpcStream.isClosed]
  split
  · rfl
  · split
    · split <;> rfl
    · split
      · rw [recvReadBody_closed]; split <;> rfl
      · rw [recvReadBody_closed]

theorem send_released_eq (r : RpcStream) (m : Nat) :
    ((r.Send m).1).released = r.released := by
  simp only [RpcStream.Send, RpcStream.isClosed]
  split
  · rfl
  · split <;> rfl

theorem recv_released_eq (r : RpcStream) :
    ((r.Recv).1).released = r.released := by
  simp only [RpcStream.Recv, RpcStream.isClosed]
  split
  · rfl
  · split
    · split <;> rfl
    · split
      · rw [recvReadBody_released]; split <;> rfl
      · rw [recvReadBody_released]

theorem close_err_eq (r : RpcStream) : ((r.Close).1).err = r.err := by
  simp only [RpcStream.Close, RpcStream.isClosed]
  split
  · rfl
  · split <;> rfl

theorem recvReadBody_err_ne (r : RpcStream) (d : Bool) (h : r.err ≠ none) :
    ((r.recvReadBody d).1).err ≠ none := by
  simp only [RpcStream.recvReadBody]
  split
  · simp
  · simpa

theorem send_err_ne (r : RpcStream) (m : Nat) (h : r.err ≠ none) :
    ((r.Send m).1).err ≠ none := by
  simp only [RpcStream.Send, RpcStream.isClosed]
  split
  · simp
  · split
    · simp
    · simpa

theorem recv_err_ne (r : RpcStream) (h : r.err ≠ none) :
    ((r.Recv).1).err ≠ none := by
  simp only [RpcStream.Recv, RpcStream.isClosed]
  split
  · simp
  · split
    · split <;> simp
    · split
      · split
        · exact recvReadBody_err_ne _ _ (by simp)
        · exact recvReadBody_err_ne _ _ (by simp)
      · exact recvReadBody_err_ne _ _ (by simpa)

theorem applyOp_err_ne (r : RpcStream) (op : Op) (h : r.err ≠ none) :
    ((r.applyOp op).1).err ≠ none := by
  cases op with
  | send m => exact send_err_ne r m h
  | recv => exact recv_err_ne r h
  | close =>
    simp only [RpcStream.applyOp]
    rw [close_err_eq]
    exact h

theorem run_err_ne (ops : List Op) :
    ∀ r : RpcStream, r.err ≠ none → ((r.run ops).1).err ≠ none := by
  induction ops with
  | nil => intro r h; simpa [RpcStream.run] using h
  | cons op ops ih =>
    intro r h
    simpa [RpcStream.run] using ih _ (applyOp_err_ne r op h)

theorem closeN_of_closed (n : Nat) :
    ∀ r : RpcStream, r.closed = true → r.closeN n = r := by
  induction n with
  | zero => intro r _; rfl
  | succ n ih =>
    intro r h
    simp only [RpcStream.closeN]
    rw [close_of_closed r h]
    exact ih r h

theorem run_after_closed (ops : List Op) :
    ∀ r : RpcStream, r.closed = true → Op.close ∉ ops →
      ((r.run ops).1).codec = r.codec ∧
      (r.run ops).2 = ops.map (fun _ => some errShutdown) ∧
      ((r.run ops).1).err = (if ops.isEmpty then r.err else some errShutdown) := by
  induction ops with
  | nil => intro r hc h; simp [RpcStream.run]
  | cons op ops ih =>
    intro r hc h
    have hop : op ≠ Op.close := fun he => h (he ▸ List.mem_cons_self _ _)
    have hmem : Op.close ∉ ops := fun hm => h (List.mem_cons_of_mem _ hm)
    have happ : r.applyOp op = ({ r with err := some errShutdown }, some errShutdown) := by
      cases op with
      | send m => simpa [RpcStream.applyOp] using send_of_closed r m hc
      | recv => simpa [RpcStream.applyOp] using recv_of_closed r hc
      | close => exact absurd rfl hop
    obtain ⟨h1, h2, h3⟩ := ih { r with err := some errShutdown } (by simpa using hc) hmem
    refine ⟨?_, ?_, ?_⟩
    · simpa [RpcStream.run, happ] using h1
    · simpa [RpcStream.run, happ] using h2
    · simp only [RpcStream.run, happ]
      rw [h3]
      split <;> simp

/-! ### Concrete streams used by witnesses and counterexamples -/

/-- An empty scripted codec: every operation succeeds. -/
def baseCodec : Codec := ⟨[], [], [], [], []⟩

/-- A fresh healthy stream bound to `baseCodec`. -/
def baseStream : RpcStream :=
  { id := "7", service := "svc", method := "Mthd", endpoint := "Ep",
    closed := false, err := none, sendEOS := true, codec := baseCodec,
    released := [] }

/-! ### Claims -/

/-- C1: once `Close` has returned, every subsequent `Send` and every
subsequent `Recv` returns the stream-closed error `errShutdown`, records
it as the stream's last error, and performs no transport operation: the
codec state (its trace included) is unchanged by the whole subsequent
sequence. -/
theorem c1_closed_rejects (r : RpcStream) (ops : List Op)
    (hnc : Op.close ∉ ops) (hne : ops ≠ []) :
    ((((r.Close).1).run ops).1).codec = ((r.Close).1).codec ∧
    (((r.Close).1).run ops).2 = ops.map (fun _ => some errShutdown) ∧
    ((((r.Close).1).run ops).1).err = some errShutdown := by
  obtain ⟨h1, h2, h3⟩ :=
    run_after_closed ops (r.Close).1 (closed_after_close r) hnc
  refine ⟨h1, h2, ?_⟩
  rw [h3]
  have he : ops.isEmpty = false := by
    cases ops with
    | nil => exact absurd rfl hne
    | cons _ _ => rfl
  rw [he]
  rfl

/-- Witness for C1 at a concrete closed stream and the sequence
`[Send 5, Recv]`. -/
theorem c1_closed_rejects_witness :
    ((((baseStream.Close).1).run [Op.send 5, Op.recv]).1).codec =
      ((baseStream.Close).1).codec ∧
    (((baseStream.Close).1).run [Op.send 5, Op.recv]).2 =
      [Op.send 5, Op.recv].map (fun _ => some errShutdown) ∧
    ((((baseStream.Close).1).run [Op.send 5, Op.recv]).1).err =
      some errShutdown :=
  c1_closed_rejects baseStream [Op.send 5, Op.recv] (by decide) (by decide)

/-- C2: `Close` is idempotent: once the open-to-closed transition has
happened, a further `Close` returns `nil` and leaves the state untouched
(no terminator write, no transport close, no release-hook invocation). -/
theorem c2_close_idempotent (r : RpcStream) :
    ((r.Close).1).Close = ((r.Close).1, none) :=
  close_of_closed _ (closed_after_close r)

/-- A closed stream carrying a recorded terminal server error. -/
def c9_bad : RpcStream :=
  { baseStream with closed := true, err := some (serverError "boom") }

/-- A stream carrying a recorded transport error. -/
def c9_ex : RpcStream := { baseStream with err := some (Err.other 3) }

/-- C9 counterexample: a terminal error (`serverError "boom"`, not the
graceful `Err.eof`) recorded on a closed stream is overwritten in kind by
`Send`'s `errShutdown` — a transition that is not the
sentinel-to-end-of-stream one, contradicting the claim that no other
overwrite of kind occurs. -/
theorem c9_counterexample :
    c9_bad.err = some (serverError "boom") ∧
    serverError "boom" ≠ Err.eof ∧
    ((c9_bad.Send 0).1).err = some errShutdown ∧
    errShutdown ≠ serverError "boom" ∧ errShutdown ≠ Err.eof := by
  decide

/-- C9 (amended): the last error is monotonic in the weaker sense the
code guarantees: once any error has been recorded, no later sequence of
`Send`/`Recv`/`Close` operations resets the last error to `nil`; a
recorded terminal error may however be overwritten by a later recorded
error of any kind (for example `errShutdown` after close, a new server
error, or the graceful end-of-stream on the sentinel), not only by the
sentinel-to-graceful-end-of-stream transition. -/
theorem c9_err_monotone (r : RpcStream) (ops : List Op)
    (h : r.err ≠ none) : ((r.run ops).1).err ≠ none :=
  run_err_ne ops r h

/-- Witness for C9 (amended) at a concrete stream carrying a transport
error and the sequence `[Recv, Close, Send 1]`. -/
theorem c9_err_monotone_witness :
    ((c9_ex.run [Op.recv, Op.close, Op.send 1]).1).err ≠ none :=
  c9_err_monotone c9_ex [Op.recv, Op.close, Op.send 1] (by decide)

theorem string_length_pos_of_ne_empty (s : String) (h : s ≠ "") :
    0 < s.length := by
  cases s with
  | mk data =>
    cases data with
    | nil => exact absurd rfl h
    | cons a as => simp [String.length]

/-- The terminator frame `Close` writes when `sendEOS` is set. -/
def eosMessage (r : RpcStream) : Message :=
  { id := r.id, target := r.service, method := r.method,
    endpoint := r.endpoint, type := MsgType.error,
    error := lastStreamResponseError }

theorem close_open (r : RpcStream) (h : r.closed = false) :
    ((r.Close).1).released = r.released ++ [r.Error] ∧
    (r.Close).2 = r.codec.closeResults.headD none ∧
    ((r.Close).1).err = r.err ∧
    ((r.Close).1).codec.trace =
      (if r.sendEOS then r.codec.trace ++ [CodecOp.write (eosMessage r) none]
       else r.codec.trace) ++ [CodecOp.close] := by
  by_cases hs : r.sendEOS <;>
    simp [RpcStream.Close, RpcStream.isClosed, h, hs, Codec.write,
      Codec.close, RpcStream.Error, eosMessage]

theorem applyOp_closed_eq (r : RpcStream) (op : Op) (h : op ≠ Op.close) :
    ((r.applyOp op).1).closed = r.closed := by
  cases op with
  | send m => exact send_closed_eq r m
  | recv => exact recv_closed_eq r
  | close => exact absurd rfl h

theorem applyOp_released_eq (r : RpcStream) (op : Op) (h : op ≠ Op.close) :
    ((r.applyOp op).1).released = r.released := by
  cases op with
  | send m => exact send_released_eq r m
  | recv => exact recv_released_eq r
  | close => exact absurd rfl h

theorem run_no_close (ops : List Op) :
    ∀ r : RpcStream, Op.close ∉ ops →
      ((r.run ops).1).closed = r.closed ∧
      ((r.run ops).1).released = r.released := by
  induction ops with
  | nil => intro r _; exact ⟨rfl, rfl⟩
  | cons op ops ih =>
    intro r h
    have hop : op ≠ Op.close := fun he => h (he ▸ List.mem_cons_self _ _)
    have hmem : Op.close ∉ ops := fun hm => h (List.mem_cons_of_mem _ hm)
    obtain ⟨h1, h2⟩ := ih ((r.applyOp op).1) hmem
    constructor
    · simpa [RpcStream.run] using h1.trans (applyOp_closed_eq r op hop)
    · simpa [RpcStream.run] using h2.trans (applyOp_released_eq r op hop)

/-- C3: for any sequence of `Send`/`Recv` calls with arbitrary outcomes
followed by one or more calls to `Close`, the release hook is invoked
exactly once — during the first `Close`, never during later calls or from
`Send`/`Recv` — and it receives the stream's last recorded error as read
through the `Error` accessor. -/
theorem c3_release_once (r : RpcStream) (ops : List Op) (n : Nat)
    (hopen : r.closed = false) (hrel : r.released = [])
    (hnc : Op.close ∉ ops) :
    (((r.run ops).1)).released = [] ∧
    ((((r.run ops).1).Close).1).released = [((r.run ops).1).Error] ∧
    (((((r.run ops).1).Close).1).closeN n).released =
      [((r.run ops).1).Error] := by
  obtain ⟨hc, hr⟩ := run_no_close ops r hnc
  have h1 : ((r.run ops).1).released = [] := hr.trans hrel
  have hcl : ((r.run ops).1).closed = false := hc.trans hopen
  have h2 := (close_open _ hcl).1
  rw [h1] at h2
  simp only [List.nil_append] at h2
  refine ⟨h1, h2, ?_⟩
  rw [closeN_of_closed n _ (closed_after_close _)]
  exact h2

/-- Witness for C3: a fresh stream whose script makes the `Send` fail and
the `Recv` succeed, followed by three calls to `Close` in total. -/
def c3_ex : RpcStream :=
  { baseStream with codec :=
    { baseCodec with writeResults := [some (Err.other 4)],
                     readHeaderResults := [ReadHeaderRes.ok ""],
                     readBodyResults := [none] } }

/-- Witness theorem for C3. -/
theorem c3_release_once_witness :
    (((c3_ex.run [Op.send 2, Op.recv]).1)).released = [] ∧
    ((((c3_ex.run [Op.send 2, Op.recv]).1).Close).1).released =
      [((c3_ex.run [Op.send 2, Op.recv]).1).Error] ∧
    (((((c3_ex.run [Op.send 2, Op.recv]).1).Close).1).closeN 2).released =
      [((c3_ex.run [Op.send 2, Op.recv]).1).Error] :=
  c3_release_once c3_ex [Op.send 2, Op.recv] 2 (by decide) (by decide)
    (by decide)

/-- C6: the first `Close` of an open stream with `sendEOS = true` writes
exactly one additional frame — of type `Error`, tagged with the stream's
id and the descriptor's service/method/endpoint, carrying the reserved
sentinel as its error string, with `nil` body — and then closes the
transport; `Close` returns the transport-close outcome regardless of the
terminator-write outcome (the write script is universally quantified and
its result never consulted).  With `sendEOS = false` no terminator frame
is written. -/
theorem c6_eos_on_close (r : RpcStream) (hopen : r.closed = false) :
    ((r.Close).1).codec.trace =
      (if r.sendEOS then r.codec.trace ++ [CodecOp.write (eosMessage r) none]
       else r.codec.trace) ++ [CodecOp.close] ∧
    (r.Close).2 = r.codec.closeResults.headD none := by
  obtain ⟨-, h2, -, h4⟩ := close_open r hopen
  exact ⟨h4, h2⟩

/-- Witness for C6: a stream whose terminator write fails
(`writeResults = [some (Err.other 9)]`) while the transport close
succeeds; `Close` still returns `none`. -/
def c6_ex : RpcStream :=
  { baseStream with codec :=
    { baseCodec with writeResults := [some (Err.other 9)],
                     closeResults := [none] } }

/-- Witness theorem for C6. -/
theorem c6_eos_on_close_witness :
    ((c6_ex.Close).1).codec.trace =
      (if c6_ex.sendEOS then
        c6_ex.codec.trace ++ [CodecOp.write (eosMessage c6_ex) none]
       else c6_ex.codec.trace) ++ [CodecOp.close] ∧
    (c6_ex.Close).2 = c6_ex.codec.closeResults.headD none :=
  c6_eos_on_close c6_ex (by decide)

theorem sentinel_length_pos : 0 < lastStreamResponseError.length := by
  decide

theorem recv_sentinel (r : RpcStream) (tl : List ReadHeaderRes)
    (tl2 : List (Option Err)) (hopen : r.closed = false)
    (hh : r.codec.readHeaderResults =
      ReadHeaderRes.ok lastStreamResponseError :: tl)
    (hb : r.codec.readBodyResults = none :: tl2) :
    (r.Recv).2 = some Err.eof ∧ ((r.Recv).1).err = some Err.eof ∧
    ((r.Recv).1).closed = false ∧ ((r.Recv).1).released = r.released := by
  refine ⟨?_, ?_, (recv_closed_eq r).trans hopen, recv_released_eq r⟩ <;>
    simp [RpcStream.Recv, RpcStream.isClosed, hopen, Codec.readHeader, hh,
      sentinel_length_pos, RpcStream.recvReadBody, Codec.readBody, hb]

/-- A fresh stream scripted to deliver the sentinel header, then a
transport end-of-input on the next header read. -/
def c4_ex : RpcStream :=
  { baseStream with codec :=
    { baseCodec with
        readHeaderResults := [ReadHeaderRes.ok lastStreamResponseError,
                              ReadHeaderRes.err Err.eof],
        readBodyResults := [none] } }

/-- C4 counterexample: after a `Recv` observes the sentinel (and returns
the graceful `Err.eof`), the next `Recv` issues another header read (the
trace grows) and returns `Err.unexpectedEOF`, a different error — the
graceful condition is re-derived from the transport, not sticky. -/
theorem c4_counterexample :
    (c4_ex.Recv).2 = some Err.eof ∧
    ((c4_ex.Recv).1).err = some Err.eof ∧
    ((((c4_ex.Recv).1).Recv)).2 = some Err.unexpectedEOF ∧
    some Err.unexpectedEOF ≠ some Err.eof ∧
    ((((c4_ex.Recv).1).Recv).1).codec.trace ≠
      ((c4_ex.Recv).1).codec.trace := by
  decide

/-- C4 (amended): once `Recv` observes the reserved sentinel it records
the graceful end-of-stream condition (`Err.eof`) as the stream's last
error, but a subsequent `Recv` re-derives its outcome from the transport
with a fresh header read: it returns the same graceful condition when the
transport again reports the sentinel (and the drain read succeeds), and
may return a different error otherwise. -/
theorem c4_sentinel_resticky (r : RpcStream) (tl : List ReadHeaderRes)
    (tl2 : List (Option Err)) (_herr : r.err = some Err.eof)
    (hopen : r.closed = false)
    (hh : r.codec.readHeaderResults =
      ReadHeaderRes.ok lastStreamResponseError :: tl)
    (hb : r.codec.readBodyResults = none :: tl2) :
    (r.Recv).2 = some Err.eof ∧ ((r.Recv).1).err = some Err.eof := by
  obtain ⟨h1, h2, -, -⟩ := recv_sentinel r tl tl2 hopen hh hb
  exact ⟨h1, h2⟩

/-- A stream that already recorded the graceful condition and is scripted
to receive the sentinel once more. -/
def c4_again : RpcStream :=
  { baseStream with err := some Err.eof, codec :=
    { baseCodec with
        readHeaderResults := [ReadHeaderRes.ok lastStreamResponseError],
        readBodyResults := [none] } }

/-- Witness theorem for C4 (amended). -/
theorem c4_sentinel_resticky_witness :
    (c4_again.Recv).2 = some Err.eof ∧
    ((c4_again.Recv).1).err = some Err.eof :=
  c4_sentinel_resticky c4_again [] [] (by decide) (by decide) (by decide)
    (by decide)

/-- C10: when a `Recv` observes the sentinel (graceful termination, drain
read succeeding) and `Close` follows with no intervening error, the
release hook receives the graceful end-of-stream value `Err.eof`
(`io.EOF`) — a non-nil error — appended to the record of release-hook
invocations. -/
theorem c10_release_graceful (r : RpcStream) (tl : List ReadHeaderRes)
    (tl2 : List (Option Err)) (hopen : r.closed = false)
    (hh : r.codec.readHeaderResults =
      ReadHeaderRes.ok lastStreamResponseError :: tl)
    (hb : r.codec.readBodyResults = none :: tl2) :
    ((((r.Recv).1).Close).1).released = r.released ++ [some Err.eof] ∧
    some Err.eof ≠ (none : Option Err) := by
  obtain ⟨-, h2, h3, h4⟩ := recv_sentinel r tl tl2 hopen hh hb
  obtain ⟨hrel, -, -, -⟩ := close_open ((r.Recv).1) h3
  rw [h4] at hrel
  refine ⟨?_, by simp⟩
  rw [hrel]
  have : ((r.Recv).1).Error = some Err.eof := h2
  rw [this]

/-- A concrete gracefully terminated stream for the C10 witness. -/
def c10_ex : RpcStream :=
  { baseStream with codec :=
    { baseCodec with
        readHeaderResults := [ReadHeaderRes.ok lastStreamResponseError],
        readBodyResults := [none] } }

/-- Witness theorem for C10. -/
theorem c10_release_graceful_witness :
    ((((c10_ex.Recv).1).Close).1).released =
      c10_ex.released ++ [some Err.eof] ∧
    some Err.eof ≠ (none : Option Err) :=
  c10_release_graceful c10_ex [] [] (by decide) (by decide) (by decide)

/-- A fresh stream whose `Send` fails on the wire but whose next response
frame is fully healthy (empty error header, body decoding fine). -/
def c5_ex : RpcStream :=
  { baseStream with codec :=
    { baseCodec with writeResults := [some (Err.other 5)],
                     readHeaderResults := [ReadHeaderRes.ok ""],
                     readBodyResults := [none] } }

/-- C5 counterexample: after a failed `Send` records `Err.other 5`, a
fully successful `Recv` (header read with empty error field, body decoded
without error — visible in the trace) still returns `some (Err.other 5)`,
not `nil`: `Recv` returns the stream's last error, which an earlier
operation had set. -/
theorem c5_counterexample :
    (c5_ex.Send 7).2 = some (Err.other 5) ∧
    (((c5_ex.Send 7).1).Recv).2 = some (Err.other 5) ∧
    some (Err.other 5) ≠ (none : Option Err) ∧
    ((((c5_ex.Send 7).1).Recv).1).codec.trace =
      [CodecOp.write { id := "7", target := "svc", method := "Mthd",
                       endpoint := "Ep", type := MsgType.request,
                       error := "" } (some 7),
       CodecOp.readHeader MsgType.response, CodecOp.readBody false] := by
  decide

/-- C5 (amended): `Recv` returns the stream's current last error after
completing; a fully successful `Recv` (header read with empty error
field, body decoded without error) leaves the last error unchanged and
returns it — so the returned value is `nil` exactly when no error had
been recorded before the call, not regardless of earlier errors. -/
theorem c5_recv_returns_last_error (r : RpcStream)
    (tl : List ReadHeaderRes) (tl2 : List (Option Err))
    (hopen : r.closed = false)
    (hh : r.codec.readHeaderResults = ReadHeaderRes.ok "" :: tl)
    (hb : r.codec.readBodyResults = none :: tl2) :
    (r.Recv).2 = r.err ∧ ((r.Recv).1).err = r.err ∧
    ((r.Recv).1).codec.trace = r.codec.trace ++
      [CodecOp.readHeader MsgType.response, CodecOp.readBody false] := by
  have hlen : ¬ (0 < ("" : String).length) := by decide
  refine ⟨?_, ?_, ?_⟩ <;>
    simp [RpcStream.Recv, RpcStream.isClosed, hopen, Codec.readHeader, hh,
      hlen, RpcStream.recvReadBody, Codec.readBody, hb]

/-- A fresh stream with no recorded error and a healthy response frame. -/
def c5_ok : RpcStream :=
  { baseStream with codec :=
    { baseCodec with readHeaderResults := [ReadHeaderRes.ok ""],
                     readBodyResults := [none] } }

/-- Witness theorem for C5 (amended). -/
theorem c5_recv_returns_last_error_witness :
    (c5_ok.Recv).2 = c5_ok.err ∧ ((c5_ok.Recv).1).err = c5_ok.err ∧
    ((c5_ok.Recv).1).codec.trace = c5_ok.codec.trace ++
      [CodecOp.readHeader MsgType.response, CodecOp.readBody false] :=
  c5_recv_returns_last_error c5_ok [] [] (by decide) (by decide) (by decide)

/-- C7: when the header read fails with the benign end-of-input `io.EOF`
while the stream is not closed, `Recv` records and returns
`io.ErrUnexpectedEOF` instead; any other header-read failure is recorded
verbatim and returned.  Only the header read touches the transport. -/
theorem c7_unexpected_eof (r : RpcStream) (e : Err)
    (tl : List ReadHeaderRes) (hopen : r.closed = false)
    (hh : r.codec.readHeaderResults = ReadHeaderRes.err e :: tl) :
    (r.Recv).2 = some (if e = Err.eof then Err.unexpectedEOF else e) ∧
    ((r.Recv).1).err =
      some (if e = Err.eof then Err.unexpectedEOF else e) ∧
    ((r.Recv).1).codec.trace =
      r.codec.trace ++ [CodecOp.readHeader MsgType.response] := by
  by_cases he : e = Err.eof <;>
    refine ⟨?_, ?_, ?_⟩ <;>
      simp [RpcStream.Recv, RpcStream.isClosed, hopen, Codec.readHeader,
        hh, he]

/-- A fresh stream whose header read reports benign end-of-input. -/
def c7_ex : RpcStream :=
  { baseStream with codec :=
    { baseCodec with readHeaderResults := [ReadHeaderRes.err Err.eof] } }

/-- Witness theorem for C7. -/
theorem c7_unexpected_eof_witness :
    (c7_ex.Recv).2 =
      some (if Err.eof = Err.eof then Err.unexpectedEOF else Err.eof) ∧
    ((c7_ex.Recv).1).err =
      some (if Err.eof = Err.eof then Err.unexpectedEOF else Err.eof) ∧
    ((c7_ex.Recv).1).codec.trace =
      c7_ex.codec.trace ++ [CodecOp.readHeader MsgType.response] :=
  c7_unexpected_eof c7_ex Err.eof [] (by decide) (by decide)

/-- A fresh stream whose response header carries a server-reported
application error and whose discard read then fails. -/
def c8_ex : RpcStream :=
  { baseStream with codec :=
    { baseCodec with
        readHeaderResults := [ReadHeaderRes.ok "insufficient funds"],
        readBodyResults := [some (Err.other 7)] } }

/-- C8 counterexample: the header carries the non-sentinel error string
"insufficient funds", so `serverError` is recorded — but the discard read
fails with `Err.other 7`, which overwrites the recorded error and is
returned: the wrapped server error is neither the stream's final last
error nor the returned value, contradicting the claim as stated. -/
theorem c8_counterexample :
    (c8_ex.Recv).2 = some (Err.other 7) ∧
    ((c8_ex.Recv).1).err = some (Err.other 7) ∧
    some (Err.other 7) ≠ some (serverError "insufficient funds") ∧
    ((c8_ex.Recv).1).codec.trace =
      [CodecOp.readHeader MsgType.response, CodecOp.readBody true] := by
  decide

/-- C8 (amended): when the header carries a non-empty error string `s`
that is not the reserved sentinel, `Recv` wraps `s` via `serverError`,
records it, and drains the frame's body with a discard read (`ReadBody`
with the `nil` target, never the caller's message); if the discard read
succeeds the wrapped server error is the stream's last error and the
returned value, while if the discard read fails that failure overwrites
the recorded error and is returned instead. -/
theorem c8_server_error (r : RpcStream) (s : String)
    (tl : List ReadHeaderRes) (d : Option Err) (tl2 : List (Option Err))
    (hopen : r.closed = false)
    (hh : r.codec.readHeaderResults = ReadHeaderRes.ok s :: tl)
    (hs : s ≠ "") (hsent : s ≠ lastStreamResponseError)
    (hb : r.codec.readBodyResults = d :: tl2) :
    (r.Recv).2 = some (d.getD (serverError s)) ∧
    ((r.Recv).1).err = some (d.getD (serverError s)) ∧
    ((r.Recv).1).codec.trace = r.codec.trace ++
      [CodecOp.readHeader MsgType.response, CodecOp.readBody true] := by
  have hlen := string_length_pos_of_ne_empty s hs
  cases d with
  | none =>
    refine ⟨?_, ?_, ?_⟩ <;>
      simp [RpcStream.Recv, RpcStream.isClosed, hopen, Codec.readHeader,
        hh, hlen, hsent, RpcStream.recvReadBody, Codec.readBody, hb]
  | some e =>
    refine ⟨?_, ?_, ?_⟩ <;>
      simp [RpcStream.Recv, RpcStream.isClosed, hopen, Codec.readHeader,
        hh, hlen, hsent, RpcStream.recvReadBody, Codec.readBody, hb]

/-- A fresh stream with a server-error header and a succeeding drain. -/
def c8_ok : RpcStream :=
  { baseStream with codec :=
    { baseCodec with
        readHeaderResults := [ReadHeaderRes.ok "insufficient funds"],
        readBodyResults := [none] } }

/-- Witness theorem for C8 (amended). -/
theorem c8_server_error_witness :
    (c8_ok.Recv).2 =
      some ((none : Option Err).getD (serverError "insufficient funds")) ∧
    ((c8_ok.Recv).1).err =
      some ((none : Option Err).getD (serverError "insufficient funds")) ∧
    ((c8_ok.Recv).1).codec.trace = c8_ok.codec.trace ++
      [CodecOp.readHeader MsgType.response, CodecOp.readBody true] :=
  c8_server_error c8_ok "insufficient funds" [] none [] (by decide)
    (by decide) (by decide) (by decide) (by decide)
